import Mathlib

/-!
# Valoritario backend — shallow embedding and verification

This file embeds the data model and the request handlers of the
Valoritario price-comparison backend (an Express + Prisma TypeScript
service) and proves the frozen claims about them.

Modelling conventions:
* JavaScript numbers (Prisma `Float` prices, JSON quantities) are
  idealized as exact rationals `ℚ`.  `Number.prototype.toFixed(2)`
  followed by `parseFloat` is modelled by `round2`, which follows the
  ECMAScript `toFixed` specification on the exact value: choose the
  integer `n` minimizing `|n / 100 - x|` and at a tie pick the larger
  `n`, i.e. round half up (towards `+∞`).
* A Prisma database is a record of lists of rows.  `findFirst` with
  ascending-price ordering (`orderBy` on `price`) is modelled by
  filtering the rows that match the `where` clause and taking a row of
  minimal price (ties are
  unspecified in the source; the model keeps the first minimal row in
  table order).
* Relation clauses (`supermarket: { city }`, `include`/`select` of a
  relation) follow the foreign key: the owning row is looked up by id.
* Handlers are pure functions from the database, the authenticated
  caller and the request to an outcome (and the new database for
  mutating handlers).  HTTP status codes carried by each outcome are
  recorded in the doc comment of the outcome type.
* Timestamps are opaque `Nat` values; `updatedAt`/`updatedBy` audit
  data is carried on the rows that the claims inspect.
-/

namespace Valoritario

/-- User roles, `Role` enum of the Prisma schema
(`BASIC`, `VERIFIED`, `ADMIN`). -/
inductive Role where
  | BASIC
  | VERIFIED
  | ADMIN
deriving DecidableEq

/-- The authenticated caller attached to a request by `authGuard`
(`req.user` of `CustomRequest`): `userId`, `email`, `role`. -/
structure AuthUser where
  userId : String
  email : String
  role : Role
deriving DecidableEq

/-- A `Product` row: id, unique name, category, comments and the audit
references (`createdBy` / `updatedBy` user ids). -/
structure Product where
  productId : String
  productName : String
  productCategory : String
  productComments : String
  createdById : String
  updatedById : String
deriving DecidableEq

/-- A `Supermarket` row: id, name, comments, city and audit references. -/
structure Supermarket where
  supermarketId : String
  supermarketName : String
  supermarketComments : String
  city : String
  createdById : String
  updatedById : String
deriving DecidableEq

/-- An `Inventory` row, keyed by `(supermarketId, productId)`:
price, stock flag, `updatedAt` timestamp and audit references (the
`updatedBy` relation exposes `email` and `userId`, so both are kept). -/
structure Inventory where
  supermarketId : String
  productId : String
  price : ℚ
  inStock : Bool
  updatedAt : Nat
  createdById : String
  updatedByUserId : String
  updatedByEmail : String
deriving DecidableEq

/-- The relational store reachable through the Prisma client. -/
structure DB where
  products : List Product
  supermarkets : List Supermarket
  inventories : List Inventory
deriving DecidableEq

/-- Lookup of `prisma.supermarket` by primary key (used to follow the
`supermarket` relation of an inventory row). -/
def DB.findSupermarket (db : DB) (id : String) : Option Supermarket :=
  db.supermarkets.find? (fun s => s.supermarketId == id)

/-- Lookup of `prisma.product` by primary key (used to follow the
`product` relation of an inventory row). -/
def DB.findProduct (db : DB) (id : String) : Option Product :=
  db.products.find? (fun p => p.productId == id)

/-- Evaluation of `parseFloat(x.toFixed(2))` on the exact value of `x`: the ECMAScript
`toFixed` rounding picks the integer `n` closest to `100 * x`, the
larger one at a tie, so the result is `⌊100 * x + 1/2⌋ / 100`
(round half up, to two decimal places). -/
def round2 (q : ℚ) : ℚ :=
  ((q * 100 + 1/2).floor : ℤ) / 100

/-- The `where` clause shared by the shopping-list resolver and
`GET /inventory/cheapest/:productId/:city`: the row's product is
`productId`, the row is in stock, and the owning supermarket (followed
through the foreign key) is located in `city`. -/
def matchesCheapest (db : DB) (city productId : String) (e : Inventory) : Bool :=
  e.productId == productId && e.inStock &&
    (match db.findSupermarket e.supermarketId with
     | some s => s.city == city
     | none => false)

/-- Ascending-price ordering followed by taking the first row:
a row of minimal price (first minimal row in table order). -/
def minByPrice : List Inventory → Option Inventory
  | [] => none
  | e :: es =>
    match minByPrice es with
    | none => some e
    | some m => if e.price ≤ m.price then some e else some m

/-- The `prisma.inventory.findFirst` call with the cheapest-offer
`where` clause and ascending-price ordering. -/
def findFirstCheapest (db : DB) (city productId : String) : Option Inventory :=
  minByPrice (db.inventories.filter (matchesCheapest db city productId))

/-- One line of the shopping-list request body
(`shoppingItems: [{ productId, quantity }]`). -/
structure ShoppingItem where
  productId : String
  quantity : ℚ
deriving DecidableEq

/-- One resolved line pushed onto `shoppingItemsWithPrices`. -/
structure ResolvedLine where
  productName : String
  supermarketName : String
  quantity : ℚ
  lowestPrice : ℚ
  subtotal : ℚ
deriving DecidableEq

/-- The per-line body of the resolver loop in `POST /shoppingList`:
look up the cheapest in-stock offer in the city; if found, build the
priced line (`subtotal = parseFloat((price * quantity).toFixed(2))`),
otherwise build the placeholder line. -/
def resolveLine (db : DB) (city : String) (item : ShoppingItem) : ResolvedLine :=
  match findFirstCheapest db city item.productId with
  | some e =>
    { productName :=
        (match db.findProduct e.productId with
         | some p => p.productName
         | none => "")
      supermarketName :=
        (match db.findSupermarket e.supermarketId with
         | some s => s.supermarketName
         | none => "")
      quantity := item.quantity
      lowestPrice := e.price
      subtotal := round2 (e.price * item.quantity) }
  | none =>
    { productName := "Product with ID " ++ item.productId ++ " not found in " ++ city
      supermarketName := "N/A"
      quantity := item.quantity
      lowestPrice := 0
      subtotal := 0 }

/-- The resolver loop: each line is resolved independently, in input
order (`for (const item of shoppingItems) { ... push(...) }`). -/
def resolveShoppingList (db : DB) (city : String) (items : List ShoppingItem) :
    List ResolvedLine :=
  items.map (resolveLine db city)

/-- The reduce over `shoppingItemsWithPrices` summing the subtotals
from zero, followed by `parseFloat((...).toFixed(2))`. -/
def shoppingListTotal (db : DB) (city : String) (items : List ShoppingItem) : ℚ :=
  round2 (((resolveShoppingList db city items).map (fun l => l.subtotal)).foldl (· + ·) 0)

/-- The `201` response body of `POST /shoppingList`
(`currentDate` is the request-time clock value, passed in opaquely). -/
structure ShoppingListResponse where
  userEmail : String
  currentDate : Nat
  city : String
  shoppingItems : List ResolvedLine
  total : ℚ
deriving DecidableEq

/-- Handler of `POST /shoppingList` (behind `authGuard`, no role restriction):
always resolves every line and answers `201` with the itemized list and
the total.  The `Nat` component is the HTTP status. -/
def shoppingListPost (db : DB) (user : AuthUser) (currentDate : Nat)
    (city : String) (items : List ShoppingItem) : Nat × ShoppingListResponse :=
  (201,
    { userEmail := user.email
      currentDate := currentDate
      city := city
      shoppingItems := resolveShoppingList db city items
      total := shoppingListTotal db city items })

/-- The response body of a successful
`GET /inventory/cheapest/:productId/:city`: the `select` clause keeps
`price`, `inStock`, the supermarket and product names, and — only when
the caller's role is `ADMIN` — `updatedAt` and the `updatedBy`
relation's `email` and `userId` (otherwise those selections are
`false` / `undefined` and the fields are absent). -/
structure CheapestResponse where
  price : ℚ
  inStock : Bool
  updatedAt : Option Nat
  updatedByEmail : Option String
  updatedByUserId : Option String
  supermarketName : String
  productName : String
deriving DecidableEq

/-- Outcome of `GET /inventory/cheapest/:productId/:city`:
`forbidden` is status `403`, `notFound` is status `404`
(`No listing found for the given product and city.`), `ok` is `200`
with the selected row. -/
inductive CheapestResult where
  | forbidden
  | notFound
  | ok (r : CheapestResponse)
deriving DecidableEq

/-- Handler of `GET /inventory/cheapest/:productId/:city` (behind `authGuard`):
the `allowedRoles` guard admits `BASIC`, `VERIFIED` and `ADMIN`; the
cheapest matching row is fetched by `findFirst` ordered by ascending
price; absence is a `404`; the selected shape exposes the audit fields
only to an `ADMIN` caller. -/
def getCheapest (db : DB) (role : Role) (productId city : String) : CheapestResult :=
  if ¬ ([Role.BASIC, Role.VERIFIED, Role.ADMIN].contains role) then
    .forbidden
  else
    match findFirstCheapest db city productId with
    | none => .notFound
    | some e =>
      .ok
        { price := e.price
          inStock := e.inStock
          updatedAt := if role = .ADMIN then some e.updatedAt else none
          updatedByEmail := if role = .ADMIN then some e.updatedByEmail else none
          updatedByUserId := if role = .ADMIN then some e.updatedByUserId else none
          supermarketName :=
            (match db.findSupermarket e.supermarketId with
             | some s => s.supermarketName
             | none => "")
          productName :=
            (match db.findProduct e.productId with
             | some p => p.productName
             | none => "") }

/-- Outcome of `POST /products`: `forbidden` is status `403`,
`conflict` is the duplicate-name rejection (status `400`, message
`The product you entered already exists in the database. ...`),
`created` is status `201` with the new row. -/
inductive CreateProductResult where
  | forbidden
  | conflict
  | created (p : Product)
deriving DecidableEq

/-- Handler of `POST /products` (behind `authGuard`): requires `VERIFIED` or
`ADMIN`; `findUnique` on the unique `productName` detects a duplicate
and rejects without creating; otherwise the product is created with
`createdBy` and `updatedBy` connected to the caller.  `newId` stands
for the id the store generates for the new row. -/
def createProduct (db : DB) (caller : AuthUser)
    (productName productCategory productComments : String) (newId : String) :
    CreateProductResult × DB :=
  if caller.role ≠ .VERIFIED ∧ caller.role ≠ .ADMIN then
    (.forbidden, db)
  else
    match db.products.find? (fun p => p.productName == productName) with
    | some _ => (.conflict, db)
    | none =>
      let p : Product :=
        { productId := newId
          productName := productName
          productCategory := productCategory
          productComments := productComments
          createdById := caller.userId
          updatedById := caller.userId }
      (.created p, { db with products := db.products ++ [p] })

/-- The JSON body of `PATCH /products/:id`; absent fields are `none`.
JavaScript truthiness makes an empty string behave like an absent
field in the `if (productName)` guards. -/
structure ProductPatch where
  productName : Option String
  productCategory : Option String
  productComments : Option String
deriving DecidableEq

/-- JavaScript truthiness of an optional string
(`undefined` and `""` are falsy). -/
def isTruthy : Option String → Bool
  | none => false
  | some s => !(s == "")

/-- Outcome of `PATCH /products/:id`: `forbidden` is status `403`;
`error500` is the `catch` branch (`prisma.product.update` throws when
no row has the id); `ok` is status `200` with the updated row. -/
inductive UpdateProductResult where
  | forbidden
  | error500
  | ok (p : Product)
deriving DecidableEq

/-- Handler of `PATCH /products/:id` (behind `authGuard`): requires `VERIFIED` or
`ADMIN`; `updateData` always reconnects `updatedBy` to the caller, and
only for an `ADMIN` caller are the truthy body fields
(`productName`, `productCategory`, `productComments`) added to it. -/
def updateProduct (db : DB) (caller : AuthUser) (id : String) (patch : ProductPatch) :
    UpdateProductResult × DB :=
  if caller.role ≠ .VERIFIED ∧ caller.role ≠ .ADMIN then
    (.forbidden, db)
  else
    match db.products.find? (fun p => p.productId == id) with
    | none => (.error500, db)
    | some p =>
      let base : Product := { p with updatedById := caller.userId }
      let p' : Product :=
        if caller.role = .ADMIN then
          { base with
            productName :=
              if isTruthy patch.productName then patch.productName.getD base.productName
              else base.productName
            productCategory :=
              if isTruthy patch.productCategory then
                patch.productCategory.getD base.productCategory
              else base.productCategory
            productComments :=
              if isTruthy patch.productComments then
                patch.productComments.getD base.productComments
              else base.productComments }
        else base
      (.ok p',
        { db with
          products := db.products.map (fun q => if q.productId == id then p' else q) })

/-- The JSON body of `PATCH /supermarket/:id`; absent fields are
`undefined`, which Prisma skips. -/
structure SupermarketPatch where
  supermarketName : Option String
  supermarketComments : Option String
  city : Option String
deriving DecidableEq

/-- Outcome of `PATCH /supermarket/:id`: `forbidden` is status `403`
(`Insufficient permissions.`); `error500` is the `catch` branch; `ok`
is status `200` with the updated row. -/
inductive UpdateSupermarketResult where
  | forbidden
  | error500
  | ok (s : Supermarket)
deriving DecidableEq

/-- Handler of `PATCH /supermarket/:id` (behind `authGuard`): the role guard
requires exactly `ADMIN` and runs before any store access; on the
permitted path the body fields that are present overwrite the row and
`updatedBy` is reconnected to the caller. -/
def updateSupermarket (db : DB) (caller : AuthUser) (id : String)
    (patch : SupermarketPatch) : UpdateSupermarketResult × DB :=
  if caller.role ≠ .ADMIN then
    (.forbidden, db)
  else
    match db.supermarkets.find? (fun s => s.supermarketId == id) with
    | none => (.error500, db)
    | some s =>
      let s' : Supermarket :=
        { s with
          supermarketName := patch.supermarketName.getD s.supermarketName
          supermarketComments := patch.supermarketComments.getD s.supermarketComments
          city := patch.city.getD s.city
          updatedById := caller.userId }
      (.ok s',
        { db with
          supermarkets :=
            db.supermarkets.map (fun t => if t.supermarketId == id then s' else t) })

/-! ### Observational equivalence up to audit data (for the
information-flow claim about the cheapest-listing route) -/

/-- Two inventory rows that agree on everything except the audit data
(`updatedAt` and the `updatedBy` reference). -/
def sameExceptAudit (e₁ e₂ : Inventory) : Prop :=
  e₁.supermarketId = e₂.supermarketId ∧ e₁.productId = e₂.productId ∧
    e₁.price = e₂.price ∧ e₁.inStock = e₂.inStock ∧ e₁.createdById = e₂.createdById

/-- Two stores that differ only in the audit data of their inventory
rows. -/
def auditEquiv (db₁ db₂ : DB) : Prop :=
  db₁.products = db₂.products ∧ db₁.supermarkets = db₂.supermarkets ∧
    List.Forall₂ sameExceptAudit db₁.inventories db₂.inventories

/-! ### Concrete example data, used by the witnesses and by the
separating example of the rounding-order claim. -/

def exVerified : AuthUser :=
  { userId := "u1", email := "ali@example.com", role := .VERIFIED }

def exAdmin : AuthUser :=
  { userId := "u2", email := "admin@example.com", role := .ADMIN }

def exBasic : AuthUser :=
  { userId := "u3", email := "basic@example.com", role := .BASIC }

def exMilk : Product :=
  { productId := "p1", productName := "Milk", productCategory := "DAIRY"
    productComments := "", createdById := "u1", updatedById := "u1" }

def exEggs : Product :=
  { productId := "p2", productName := "Eggs", productCategory := "DAIRY"
    productComments := "", createdById := "u1", updatedById := "u1" }

def exFreshMart : Supermarket :=
  { supermarketId := "s1", supermarketName := "Fresh Mart"
    supermarketComments := "", city := "New York"
    createdById := "u1", updatedById := "u1" }

/-- An in-stock New York offer for `Milk` at price `3.50`. -/
def exMilkOffer : Inventory :=
  { supermarketId := "s1", productId := "p1", price := 7/2, inStock := true
    updatedAt := 5, createdById := "u1", updatedByUserId := "u1"
    updatedByEmail := "ali@example.com" }

/-- An in-stock New York offer for `Eggs` at price `1.004`. -/
def exEggsOffer : Inventory :=
  { supermarketId := "s1", productId := "p2", price := 251/250, inStock := true
    updatedAt := 6, createdById := "u1", updatedByUserId := "u1"
    updatedByEmail := "ali@example.com" }

def exDb : DB :=
  { products := [exMilk, exEggs], supermarkets := [exFreshMart]
    inventories := [exMilkOffer, exEggsOffer] }

/-- Copy of `exDb` with different audit data on its inventory rows
(everything a non-admin caller can observe is identical). -/
def exDbAudit : DB :=
  { products := [exMilk, exEggs], supermarkets := [exFreshMart]
    inventories :=
      [{ exMilkOffer with
         updatedAt := 99
         updatedByUserId := "u2"
         updatedByEmail := "admin@example.com" },
       { exEggsOffer with
         updatedAt := 98
         updatedByUserId := "u2"
         updatedByEmail := "admin@example.com" }] }


/-- The response of the cheapest-listing route for `Milk` in
`New York` seen by a `BASIC` caller. -/
def exCheapestResp : CheapestResponse :=
  { price := 7/2, inStock := true, updatedAt := none, updatedByEmail := none
    updatedByUserId := none, supermarketName := "Fresh Mart", productName := "Milk" }

/-! ### Helper lemmas -/

/-- Equation relating `round2` to the `Int.floor` of the ordered
field `ℚ`. -/
theorem round2_eq_intFloor (q : ℚ) : round2 q = (⌊q * 100 + 1/2⌋ : ℤ) / 100 := by
  rw [round2, Rat.floor_def, Rat.floor_def']

theorem minByPrice_ne_none (e : Inventory) (es : List Inventory) :
    minByPrice (e :: es) ≠ none := by
  cases h : minByPrice es with
  | none => simp [minByPrice, h]
  | some m =>
    simp only [minByPrice, h]
    split <;> simp

theorem minByPrice_eq_none {l : List Inventory} (h : minByPrice l = none) : l = [] := by
  cases l with
  | nil => rfl
  | cons e es => exact absurd h (minByPrice_ne_none e es)

theorem minByPrice_mem {l : List Inventory} {m : Inventory}
    (h : minByPrice l = some m) : m ∈ l := by
  induction l generalizing m with
  | nil => simp [minByPrice] at h
  | cons e es ih =>
    rw [minByPrice] at h
    split at h
    · injection h with h
      subst h
      exact List.mem_cons_self e es
    · rename_i m' h'
      split at h
      · injection h with h
        subst h
        exact List.mem_cons_self e es
      · injection h with h
        subst h
        exact List.mem_cons_of_mem e (ih h')

theorem minByPrice_le {l : List Inventory} {m : Inventory}
    (h : minByPrice l = some m) : ∀ x ∈ l, m.price ≤ x.price := by
  induction l generalizing m with
  | nil => simp [minByPrice] at h
  | cons e es ih =>
    intro x hx
    rw [minByPrice] at h
    split at h
    · rename_i h'
      injection h with h
      subst h
      rcases List.mem_cons.mp hx with hx | hx
      · rw [hx]
      · rw [minByPrice_eq_none h'] at hx; simp at hx
    · rename_i m' h'
      split at h
      · rename_i hle
        injection h with h
        subst h
        rcases List.mem_cons.mp hx with hx | hx
        · rw [hx]
        · exact le_trans hle (ih h' x hx)
      · rename_i hle
        injection h with h
        subst h
        rcases List.mem_cons.mp hx with hx | hx
        · rw [hx]; exact le_of_not_le hle
        · exact ih h' x hx

theorem findFirstCheapest_eq_none_iff (db : DB) (city productId : String) :
    findFirstCheapest db city productId = none ↔
      ∀ e ∈ db.inventories, matchesCheapest db city productId e = false := by
  constructor
  · intro h e he
    have hnil := minByPrice_eq_none h
    by_contra hc
    have : e ∈ db.inventories.filter (matchesCheapest db city productId) :=
      List.mem_filter.mpr ⟨he, by simpa using hc⟩
    rw [hnil] at this
    simp at this
  · intro h
    have : db.inventories.filter (matchesCheapest db city productId) = [] :=
      List.filter_eq_nil_iff.mpr (fun e he => by simp [h e he])
    rw [findFirstCheapest, this]
    rfl

theorem findFirstCheapest_spec {db : DB} {city productId : String} {e : Inventory}
    (h : findFirstCheapest db city productId = some e) :
    e ∈ db.inventories ∧ matchesCheapest db city productId e = true ∧
      ∀ e' ∈ db.inventories, matchesCheapest db city productId e' = true →
        e.price ≤ e'.price := by
  have hmem := minByPrice_mem h
  have hfil := List.mem_filter.mp hmem
  refine ⟨hfil.1, hfil.2, ?_⟩
  intro e' he' hm'
  exact minByPrice_le h e' (List.mem_filter.mpr ⟨he', hm'⟩)

/-- Unfolding of the `where` clause into the claim's vocabulary. -/
theorem matchesCheapest_iff (db : DB) (city productId : String) (e : Inventory) :
    matchesCheapest db city productId e = true ↔
      e.productId = productId ∧ e.inStock = true ∧
        ∃ s, db.findSupermarket e.supermarketId = some s ∧ s.city = city := by
  unfold matchesCheapest
  cases hs : db.findSupermarket e.supermarketId with
  | none => simp [hs]
  | some s =>
    simp only [hs, Bool.and_eq_true, beq_iff_eq]
    constructor
    · rintro ⟨⟨h1, h2⟩, h3⟩; exact ⟨h1, h2, s, rfl, h3⟩
    · rintro ⟨h1, h2, s', hs', h3⟩
      injection hs' with hss
      subst hss
      exact ⟨⟨h1, h2⟩, h3⟩

theorem foldl_add_eq_sum (l : List ℚ) : ∀ a : ℚ, l.foldl (· + ·) a = a + l.sum := by
  induction l with
  | nil => intro a; simp
  | cons x xs ih => intro a; simp [ih, add_assoc]

/-- The per-line subtotal of the resolver, by cases on the lookup. -/
theorem resolveLine_subtotal (db : DB) (city : String) (it : ShoppingItem) :
    (resolveLine db city it).subtotal =
      match findFirstCheapest db city it.productId with
      | some e => round2 (e.price * it.quantity)
      | none => 0 := by
  cases h : findFirstCheapest db city it.productId <;> simp [resolveLine, h]

theorem matchesCheapest_congr {db₁ db₂ : DB} (city productId : String)
    {e₁ e₂ : Inventory} (hsup : db₁.supermarkets = db₂.supermarkets)
    (he : sameExceptAudit e₁ e₂) :
    matchesCheapest db₁ city productId e₁ = matchesCheapest db₂ city productId e₂ := by
  obtain ⟨h1, h2, _, h4, _⟩ := he
  unfold matchesCheapest DB.findSupermarket
  rw [h1, h2, h4, hsup]

theorem filter_forall₂ {R : Inventory → Inventory → Prop}
    {p q : Inventory → Bool} {l₁ l₂ : List Inventory}
    (h : List.Forall₂ R l₁ l₂) (hpq : ∀ a b, R a b → p a = q b) :
    List.Forall₂ R (l₁.filter p) (l₂.filter q) := by
  induction h with
  | nil => simp [List.Forall₂.nil]
  | cons hab htail ih =>
    rename_i a b as bs
    by_cases hp : p a = true
    · have hq : q b = true := (hpq a b hab) ▸ hp
      simpa [List.filter_cons, hp, hq] using List.Forall₂.cons hab ih
    · have hq : ¬ (q b = true) := fun hc => hp ((hpq a b hab).symm ▸ hc)
      simpa [List.filter_cons, hp, hq] using ih

theorem minByPrice_forall₂ {l₁ l₂ : List Inventory}
    (h : List.Forall₂ sameExceptAudit l₁ l₂) :
    (minByPrice l₁ = none ∧ minByPrice l₂ = none) ∨
      ∃ m₁ m₂, minByPrice l₁ = some m₁ ∧ minByPrice l₂ = some m₂ ∧
        sameExceptAudit m₁ m₂ := by
  induction h with
  | nil => exact Or.inl ⟨rfl, rfl⟩
  | cons hab htail ih =>
    rename_i a b as bs
    rcases ih with ⟨h1, h2⟩ | ⟨m₁, m₂, h1, h2, hm⟩
    · exact Or.inr ⟨a, b, by simp [minByPrice, h1], by simp [minByPrice, h2], hab⟩
    · by_cases hle : a.price ≤ m₁.price
      · have hle' : b.price ≤ m₂.price := by
          rw [← hab.2.2.1, ← hm.2.2.1]; exact hle
        exact Or.inr ⟨a, b, by simp [minByPrice, h1, hle],
          by simp [minByPrice, h2, hle'], hab⟩
      · have hle' : ¬ (b.price ≤ m₂.price) := by
          rw [← hab.2.2.1, ← hm.2.2.1]; exact hle
        exact Or.inr ⟨m₁, m₂, by simp [minByPrice, h1, hle],
          by simp [minByPrice, h2, hle'], hm⟩


/-! ### Claim theorems -/

/-- C1: for every shopping-list request with city `c` and an ordered
sequence of `N` lines `{productId, quantity}`, the resolver returns an
ordered sequence of exactly `N` resolved lines whose order matches the
input order (line `i` of the output is the resolution of line `i` of
the input), and a line having no in-stock offer in `c` never aborts
the resolution of the other lines: every line's result is a function
of that line alone. -/
theorem resolver_returns_all_lines_in_order (db : DB) (city : String)
    (items : List ShoppingItem) :
    (resolveShoppingList db city items).length = items.length ∧
    ∀ i : Nat, (resolveShoppingList db city items)[i]? =
      (items[i]?).map (resolveLine db city) := by
  refine ⟨by simp [resolveShoppingList], fun i => ?_⟩
  simp [resolveShoppingList, List.getElem?_map]

/-- C3: the resolved shopping list's `total` equals
`round(sum of the per-line subtotals, 2)`, where a resolvable line
contributes `round(price * qty, 2)` and an unresolved line contributes
`0` — sum-of-rounded; and (second conjunct) sum-of-rounded differs
from round-of-sum on a concrete store, so the order of operations is
observable. -/
theorem total_is_round_of_sum_of_rounded_subtotals (db : DB) (city : String)
    (items : List ShoppingItem) :
    shoppingListTotal db city items =
      round2 ((items.map (fun it =>
        match findFirstCheapest db city it.productId with
        | some e => round2 (e.price * it.quantity)
        | none => 0)).sum) ∧
    shoppingListTotal exDb "New York" [⟨"p2", 1⟩, ⟨"p2", 1⟩] ≠
      round2 ((([⟨"p2", 1⟩, ⟨"p2", 1⟩] : List ShoppingItem).map (fun it =>
        match findFirstCheapest exDb "New York" it.productId with
        | some e => e.price * it.quantity
        | none => 0)).sum) := by
  constructor
  · unfold shoppingListTotal resolveShoppingList
    rw [foldl_add_eq_sum, zero_add, List.map_map]
    have hfun : ((fun l : ResolvedLine => l.subtotal) ∘ resolveLine db city) =
        fun it : ShoppingItem =>
          match findFirstCheapest db city it.productId with
          | some e => round2 (e.price * it.quantity)
          | none => 0 := by
      funext it
      exact resolveLine_subtotal db city it
    rw [hfun]
  · norm_num [shoppingListTotal, resolveShoppingList, resolveLine,
      findFirstCheapest, exDb, matchesCheapest, DB.findSupermarket, DB.findProduct,
      exMilkOffer, exEggsOffer, exFreshMart, exMilk, exEggs, minByPrice,
      round2, Rat.floor_def', List.filter, List.find?]

/-- C4: for every resolvable shopping-list line the subtotal equals
`lowestPrice * quantity` rounded to two decimal places, and the
rounding is round half up: an exact product of the form `x.xx5`
(i.e. `(2m+1)/200`) rounds up to `(m+1)/100`. -/
theorem resolvable_subtotal_rounds_half_up (db : DB) (city : String)
    (items : List ShoppingItem) (i : Nat) (it : ShoppingItem) (e : Inventory)
    (hit : items[i]? = some it)
    (he : findFirstCheapest db city it.productId = some e) :
    ((resolveShoppingList db city items)[i]?).map (fun l => l.subtotal) =
      some (round2 (e.price * it.quantity)) ∧
    ∀ m : ℤ, round2 (((2 * m + 1 : ℤ) : ℚ) / 200) = ((m + 1 : ℤ) : ℚ) / 100 := by
  constructor
  · simp [resolveShoppingList, List.getElem?_map, hit, resolveLine, he]
  · intro m
    rw [round2_eq_intFloor]
    have harg : ((2 * m + 1 : ℤ) : ℚ) / 200 * 100 + 1/2 = ((m + 1 : ℤ) : ℚ) := by
      push_cast
      ring
    rw [harg, Int.floor_intCast]

/-- C5: a shopping-list line whose product has no in-stock offer in the
city resolves to the placeholder line
`{productName: "Product with ID <id> not found in <city>",
supermarketName: "N/A", quantity, lowestPrice: 0, subtotal: 0}`, and
this is a valid `201` result value of the route, not an error. -/
theorem line_without_offer_soft_fails (db : DB) (city : String)
    (items : List ShoppingItem) (i : Nat) (it : ShoppingItem)
    (hit : items[i]? = some it)
    (hnone : findFirstCheapest db city it.productId = none) :
    (resolveShoppingList db city items)[i]? = some
      { productName := "Product with ID " ++ it.productId ++ " not found in " ++ city
        supermarketName := "N/A"
        quantity := it.quantity
        lowestPrice := 0
        subtotal := 0 } ∧
    ∀ (user : AuthUser) (d : Nat), (shoppingListPost db user d city items).1 = 201 := by
  constructor
  · simp [resolveShoppingList, List.getElem?_map, hit, resolveLine, hnone]
  · intro user d
    rfl

/-- C7: a caller whose role is `BASIC` receives `Forbidden` from
`PATCH /supermarket/:id` and the store — in particular the targeted
supermarket row with all of its fields, `updatedBy` included — is
unchanged. -/
theorem basic_cannot_patch_supermarket (db : DB) (caller : AuthUser) (id : String)
    (patch : SupermarketPatch) (hrole : caller.role = .BASIC) :
    (updateSupermarket db caller id patch).1 = .forbidden ∧
    (updateSupermarket db caller id patch).2 = db := by
  have h : caller.role ≠ .ADMIN := by rw [hrole]; decide
  unfold updateSupermarket
  rw [if_pos h]
  exact ⟨rfl, rfl⟩

/-- C10: the resolver performs no validation of `quantity`: line `i`
echoes the input quantity unchanged, its subtotal is computed as
`round(lowestPrice * quantity, 2)` for every quantity (zero or
negative included, with an unresolved line contributing `0`), the
route still answers `201`, and a product below `-1/200` rounds to a
strictly negative subtotal, which reduces the total. -/
theorem resolver_does_not_validate_quantity (db : DB) (city : String)
    (items : List ShoppingItem) (i : Nat) (it : ShoppingItem)
    (hit : items[i]? = some it) :
    ((resolveShoppingList db city items)[i]?).map (fun l => l.quantity) =
      some it.quantity ∧
    ((resolveShoppingList db city items)[i]?).map (fun l => l.subtotal) =
      some (match findFirstCheapest db city it.productId with
            | some e => round2 (e.price * it.quantity)
            | none => 0) ∧
    (∀ (user : AuthUser) (d : Nat), (shoppingListPost db user d city items).1 = 201) ∧
    ∀ x : ℚ, x < -(1/200) → round2 x < 0 := by
  refine ⟨?_, ?_, fun user d => rfl, ?_⟩
  · cases h : findFirstCheapest db city it.productId <;>
      simp [resolveShoppingList, List.getElem?_map, hit, resolveLine, h]
  · simp [resolveShoppingList, List.getElem?_map, hit, resolveLine_subtotal]
  · intro x hx
    rw [round2_eq_intFloor]
    apply div_neg_of_neg_of_pos _ (by norm_num)
    have hfl : ⌊x * 100 + 1/2⌋ < (0 : ℤ) := by
      rw [Int.floor_lt]
      push_cast
      linarith
    exact_mod_cast hfl

/-- The `allowedRoles` array of the cheapest-listing route contains
every role, so the guard never rejects an authenticated caller. -/
theorem allowedRoles_contains (role : Role) :
    ([Role.BASIC, Role.VERIFIED, Role.ADMIN].contains role) = true := by
  cases role <;> rfl

theorem guard_passes (role : Role) :
    ¬¬([Role.BASIC, Role.VERIFIED, Role.ADMIN].contains role = true) :=
  not_not_intro (allowedRoles_contains role)

/-- C2: `GET /inventory/cheapest/{productId}/{city}` answers `404`
exactly when no in-stock entry for the product is owned by a
supermarket in the city, and a `200` response carries the price of
such an entry that is minimal among all of them. -/
theorem cheapest_route_min_price_or_not_found (db : DB) (role : Role)
    (productId city : String) :
    (getCheapest db role productId city = .notFound ↔
      ∀ e ∈ db.inventories, ¬ (e.productId = productId ∧ e.inStock = true ∧
        ∃ s, db.findSupermarket e.supermarketId = some s ∧ s.city = city)) ∧
    ∀ r, getCheapest db role productId city = .ok r →
      ∃ e ∈ db.inventories,
        e.productId = productId ∧ e.inStock = true ∧
        (∃ s, db.findSupermarket e.supermarketId = some s ∧ s.city = city) ∧
        r.price = e.price ∧ r.inStock = e.inStock ∧
        ∀ e' ∈ db.inventories,
          e'.productId = productId → e'.inStock = true →
          (∃ s, db.findSupermarket e'.supermarketId = some s ∧ s.city = city) →
          e.price ≤ e'.price := by
  unfold getCheapest
  rw [if_neg (guard_passes role)]
  cases h : findFirstCheapest db city productId with
  | none =>
    simp only [h]
    refine ⟨⟨fun _ => ?_, fun _ => by trivial⟩, ?_⟩
    · intro e he hprops
      have hm := (findFirstCheapest_eq_none_iff db city productId).mp h e he
      have ht := (matchesCheapest_iff db city productId e).mpr hprops
      rw [ht] at hm
      cases hm
    · intro r hr
      cases hr
  | some e =>
    obtain ⟨hmem, hmatch, hmin⟩ := findFirstCheapest_spec h
    obtain ⟨hpid, hstock, hcity⟩ := (matchesCheapest_iff db city productId e).mp hmatch
    simp only [h]
    refine ⟨⟨fun hc => ?_, fun hall => ?_⟩, ?_⟩
    · cases hc
    · exact absurd ⟨hpid, hstock, hcity⟩ (hall e hmem)
    · intro r hr
      injection hr with hr
      subst hr
      refine ⟨e, hmem, hpid, hstock, hcity, rfl, rfl, ?_⟩
      intro e' he' hpid' hstock' hcity'
      exact hmin e' he'
        ((matchesCheapest_iff db city productId e').mpr ⟨hpid', hstock', hcity'⟩)

/-- C6: creating a product whose name already exists fails with the
uniqueness-violation rejection (the spec's Conflict outcome; the
handler answers it as status 400 with the
`already exists` message) and leaves the store unchanged: no
duplicate row is created. -/
theorem duplicate_product_name_conflicts (db : DB) (caller : AuthUser)
    (name cat comm newId : String)
    (hrole : caller.role = .VERIFIED ∨ caller.role = .ADMIN)
    (hdup : ∃ p ∈ db.products, p.productName = name) :
    (createProduct db caller name cat comm newId).1 = .conflict ∧
    (createProduct db caller name cat comm newId).2 = db := by
  have hr : ¬ (caller.role ≠ .VERIFIED ∧ caller.role ≠ .ADMIN) := by
    rcases hrole with h | h <;> simp [h]
  have hfind : (db.products.find? (fun p => p.productName == name)).isSome := by
    rw [List.find?_isSome]
    obtain ⟨p, hp, hname⟩ := hdup
    exact ⟨p, hp, by simp [hname]⟩
  obtain ⟨q, hq⟩ := Option.isSome_iff_exists.mp hfind
  unfold createProduct
  rw [if_neg hr, hq]
  exact ⟨rfl, rfl⟩

/-- C8: a permitted caller's `PATCH /products/{id}` always stamps
`updatedBy` with the caller's identity, and a `VERIFIED` caller's
update leaves `productName`, `productCategory` and `productComments`
at their prior values (only `ADMIN` can change them). -/
theorem update_product_restricted_fields (db : DB) (caller : AuthUser)
    (id : String) (patch : ProductPatch) (p : Product)
    (hrole : caller.role = .VERIFIED ∨ caller.role = .ADMIN)
    (hfind : db.products.find? (fun q => q.productId == id) = some p) :
    ∃ p', (updateProduct db caller id patch).1 = .ok p' ∧
      p'.updatedById = caller.userId ∧
      (caller.role = .VERIFIED →
        p'.productName = p.productName ∧
        p'.productCategory = p.productCategory ∧
        p'.productComments = p.productComments) := by
  have hr : ¬ (caller.role ≠ .VERIFIED ∧ caller.role ≠ .ADMIN) := by
    rcases hrole with h | h <;> simp [h]
  unfold updateProduct
  rw [if_neg hr, hfind]
  refine ⟨_, rfl, ?_, ?_⟩
  · by_cases hadmin : caller.role = .ADMIN
    · simp [hadmin]
    · simp [hadmin]
  · intro hv
    have hna : ¬ (caller.role = .ADMIN) := by rw [hv]; decide
    simp [hna]

/-- C9: a successful cheapest-listing response carries the audit
fields (`updatedAt`, `updatedBy` email and user id) iff the caller is
`ADMIN`; and for a non-`ADMIN` caller the whole response is
independent of the audit data: two stores differing only in the
`updatedAt`/`updatedBy` data of their inventory rows produce the same
response. -/
theorem cheapest_audit_fields_admin_only :
    (∀ (db : DB) (role : Role) (productId city : String) (r : CheapestResponse),
      getCheapest db role productId city = .ok r →
      ((r.updatedAt.isSome ∧ r.updatedByEmail.isSome ∧ r.updatedByUserId.isSome) ↔
        role = .ADMIN)) ∧
    ∀ (db₁ db₂ : DB) (role : Role) (productId city : String),
      role ≠ .ADMIN → auditEquiv db₁ db₂ →
      getCheapest db₁ role productId city = getCheapest db₂ role productId city := by
  constructor
  · intro db role productId city r hr
    unfold getCheapest at hr
    rw [if_neg (guard_passes role)] at hr
    cases h : findFirstCheapest db city productId with
    | none => rw [h] at hr; cases hr
    | some e =>
      rw [h] at hr
      injection hr with hr
      subst hr
      by_cases hadmin : role = .ADMIN
      · simp [hadmin]
      · simp [hadmin]
  · rintro db₁ db₂ role productId city hrole ⟨hprod, hsup, hinv⟩
    have hfil : List.Forall₂ sameExceptAudit
        (db₁.inventories.filter (matchesCheapest db₁ city productId))
        (db₂.inventories.filter (matchesCheapest db₂ city productId)) :=
      filter_forall₂ hinv (fun a b hab => matchesCheapest_congr city productId hsup hab)
    unfold getCheapest findFirstCheapest
    rcases minByPrice_forall₂ hfil with ⟨h1, h2⟩ | ⟨m₁, m₂, h1, h2, hm⟩
    · simp only [h1, h2, if_neg (guard_passes role)]
    · obtain ⟨hsid, hpid, hprice, hstock, _⟩ := hm
      have hsup' : db₁.findSupermarket m₁.supermarketId =
          db₂.findSupermarket m₂.supermarketId := by
        unfold DB.findSupermarket
        rw [hsid, hsup]
      have hprod' : db₁.findProduct m₁.productId = db₂.findProduct m₂.productId := by
        unfold DB.findProduct
        rw [hpid, hprod]
      simp only [h1, h2, hprice, hstock, hsup', hprod', if_neg hrole,
        if_neg (guard_passes role)]

/-! ### Witnesses: each claim theorem applied at concrete inputs. -/

/-- Witness for C1 at a two-line request. -/
theorem resolver_returns_all_lines_in_order_witness :
    (resolveShoppingList exDb "New York" [⟨"p1", 2⟩, ⟨"p9", 1⟩]).length =
      ([⟨"p1", 2⟩, ⟨"p9", 1⟩] : List ShoppingItem).length :=
  (resolver_returns_all_lines_in_order exDb "New York" [⟨"p1", 2⟩, ⟨"p9", 1⟩]).1

/-- Witness for C2 at the example store. -/
theorem cheapest_route_min_price_or_not_found_witness :
    ∃ e ∈ exDb.inventories,
      e.productId = "p1" ∧ e.inStock = true ∧
      (∃ s, exDb.findSupermarket e.supermarketId = some s ∧ s.city = "New York") ∧
      exCheapestResp.price = e.price ∧ exCheapestResp.inStock = e.inStock ∧
      ∀ e' ∈ exDb.inventories,
        e'.productId = "p1" → e'.inStock = true →
        (∃ s, exDb.findSupermarket e'.supermarketId = some s ∧ s.city = "New York") →
        e.price ≤ e'.price :=
  (cheapest_route_min_price_or_not_found exDb .BASIC "p1" "New York").2
    exCheapestResp
    (by
      norm_num [getCheapest, findFirstCheapest, exDb, matchesCheapest,
        DB.findSupermarket, DB.findProduct, exMilkOffer, exEggsOffer, exFreshMart,
        exMilk, exEggs, minByPrice, exCheapestResp, List.filter, List.find?,
        List.contains, List.elem]
      decide)

/-- Witness for C3 at a one-line request. -/
theorem total_is_round_of_sum_of_rounded_subtotals_witness :
    shoppingListTotal exDb "New York" [⟨"p1", 2⟩] =
      round2 ((([⟨"p1", 2⟩] : List ShoppingItem).map (fun it =>
        match findFirstCheapest exDb "New York" it.productId with
        | some e => round2 (e.price * it.quantity)
        | none => 0)).sum) :=
  (total_is_round_of_sum_of_rounded_subtotals exDb "New York" [⟨"p1", 2⟩]).1

/-- Witness for C4: the `Milk` line at quantity 2 subtotals to
`round2 (3.5 * 2)`. -/
theorem resolvable_subtotal_rounds_half_up_witness :
    ((resolveShoppingList exDb "New York" [⟨"p1", 2⟩])[0]?).map (fun l => l.subtotal) =
      some (round2 (exMilkOffer.price * (⟨"p1", 2⟩ : ShoppingItem).quantity)) :=
  (resolvable_subtotal_rounds_half_up exDb "New York" [⟨"p1", 2⟩] 0 ⟨"p1", 2⟩
    exMilkOffer rfl
    (by norm_num [findFirstCheapest, exDb, matchesCheapest, DB.findSupermarket,
      exMilkOffer, exEggsOffer, exFreshMart, minByPrice, List.filter,
      List.find?])).1

/-- Witness for C5: product `p9` has no New York offer. -/
theorem line_without_offer_soft_fails_witness :
    (resolveShoppingList exDb "New York" [⟨"p9", 1⟩])[0]? = some
      { productName := "Product with ID " ++ "p9" ++ " not found in " ++ "New York"
        supermarketName := "N/A"
        quantity := 1
        lowestPrice := 0
        subtotal := 0 } :=
  (line_without_offer_soft_fails exDb "New York" [⟨"p9", 1⟩] 0 ⟨"p9", 1⟩ rfl
    (by norm_num [findFirstCheapest, exDb, matchesCheapest, DB.findSupermarket,
      exMilkOffer, exEggsOffer, exFreshMart, minByPrice, List.filter,
      List.find?])).1

/-- Witness for C6: creating a second `Milk` is rejected and the store
is unchanged. -/
theorem duplicate_product_name_conflicts_witness :
    (createProduct exDb exVerified "Milk" "DAIRY" "" "p3").1 = .conflict ∧
    (createProduct exDb exVerified "Milk" "DAIRY" "" "p3").2 = exDb :=
  duplicate_product_name_conflicts exDb exVerified "Milk" "DAIRY" "" "p3"
    (Or.inl rfl) ⟨exMilk, by simp [exDb], rfl⟩

/-- Witness for C7: the `BASIC` caller's patch is rejected and the
store is unchanged. -/
theorem basic_cannot_patch_supermarket_witness :
    (updateSupermarket exDb exBasic "s1" ⟨none, none, none⟩).1 = .forbidden ∧
    (updateSupermarket exDb exBasic "s1" ⟨none, none, none⟩).2 = exDb :=
  basic_cannot_patch_supermarket exDb exBasic "s1" ⟨none, none, none⟩ rfl

/-- Witness for C8: a `VERIFIED` caller patching `Milk` with a new
name leaves the restricted fields unchanged and stamps `updatedBy`. -/
theorem update_product_restricted_fields_witness :
    ∃ p', (updateProduct exDb exVerified "p1" ⟨some "Cream", none, none⟩).1 = .ok p' ∧
      p'.updatedById = exVerified.userId ∧
      (exVerified.role = .VERIFIED →
        p'.productName = exMilk.productName ∧
        p'.productCategory = exMilk.productCategory ∧
        p'.productComments = exMilk.productComments) :=
  update_product_restricted_fields exDb exVerified "p1" ⟨some "Cream", none, none⟩
    exMilk (Or.inl rfl) (by simp [exDb, exMilk, exEggs, List.find?])

/-- Witness for C9: a `BASIC` caller cannot distinguish the example
store from its audit-modified copy. -/
theorem cheapest_audit_fields_admin_only_witness :
    getCheapest exDb .BASIC "p1" "New York" =
      getCheapest exDbAudit .BASIC "p1" "New York" :=
  cheapest_audit_fields_admin_only.2 exDb exDbAudit .BASIC "p1" "New York"
    (by decide)
    ⟨rfl, rfl, List.Forall₂.cons ⟨rfl, rfl, rfl, rfl, rfl⟩
      (List.Forall₂.cons ⟨rfl, rfl, rfl, rfl, rfl⟩ List.Forall₂.nil)⟩

/-- Witness for C10: a line with negative quantity `-3` still echoes
the quantity. -/
theorem resolver_does_not_validate_quantity_witness :
    ((resolveShoppingList exDb "New York" [⟨"p1", -3⟩])[0]?).map
        (fun l => l.quantity) =
      some ((⟨"p1", -3⟩ : ShoppingItem).quantity) :=
  (resolver_does_not_validate_quantity exDb "New York" [⟨"p1", -3⟩] 0 ⟨"p1", -3⟩
    rfl).1

end Valoritario


